import Mathlib

/-!
Shallow embedding of the orchestration and communication layer of the
theoldswitcheroo repository (remote taskspace orchestrator), together with
theorems settling the specification claims.

Each definition is translated from a named function of the source tree:
 * `extractUuidFromPath`        — daemon CLI / tool server UUID derivation
 * `updateTaskspaceCommand`     — the `update-taskspace` CLI command action
 * `updateTaskSpaceFromCLI`     — the controller's update handler
 * `mkNewTaskspaceMessage` etc. — the tool-protocol server message builders
 * `portalDaemonStart`, `pdStep`— the bus daemon's startup and event handling
 * `ensureMaster`               — the per-host control-channel setup
 * `matchFirstPort`, `vscodeStartRun`, `ensureVSCodeServerModel`
                                — editor-server startup and port discovery
-/

/-! ## Character and string helpers shared by the embedded functions -/

/-- Hexadecimal digit test for the UUID regex character class `[0-9a-f]`
with the `i` flag, i.e. also `A`–`F`. -/
def isHexDigitCh (c : Char) : Bool :=
  c.isDigit || ('a' ≤ c && c ≤ 'f') || ('A' ≤ c && c ≤ 'F')

/-- Consume exactly `n` hex digits from the front of the list, returning the
remainder; `none` if fewer are available. Models the regex `[0-9a-f]{n}`. -/
def hexRun : Nat → List Char → Option (List Char)
  | 0, l => some l
  | _ + 1, [] => none
  | n + 1, c :: l => if isHexDigitCh c then hexRun n l else none

/-- Consume a literal dash. -/
def dashRun : List Char → Option (List Char)
  | '-' :: l => some l
  | _ => none

/-- Does the canonical 8-4-4-4-12 UUID pattern match at the head of the list?
Models `/[0-9a-f]{8}-[0-9a-f]{4}-[0-9a-f]{4}-[0-9a-f]{4}-[0-9a-f]{12}/i`
anchored at the current scan position. -/
def matchUuidAt (l : List Char) : Bool :=
  (do
    let l ← hexRun 8 l
    let l ← dashRun l
    let l ← hexRun 4 l
    let l ← dashRun l
    let l ← hexRun 4 l
    let l ← dashRun l
    let l ← hexRun 4 l
    let l ← dashRun l
    let _ ← hexRun 12 l
    pure ()).isSome

/-- Left-to-right scan for the first match of the UUID pattern, as the
JavaScript regex engine does for an unanchored `String.match`. -/
def extractUuidGo : List Char → Option String
  | [] => none
  | c :: rest =>
    if matchUuidAt (c :: rest) then some (String.mk ((c :: rest).take 36))
    else extractUuidGo rest

/-- `extractUuidFromPath(cwd)` from the taskspace CLI (cli-tool source) and,
identically, from the tool-protocol server: return the first canonical UUID
substring of the working-directory path, or `null`. -/
def extractUuidFromPath (cwd : String) : Option String :=
  extractUuidGo cwd.data

/-- JavaScript truthiness of an optional string option (absent and the empty
string are falsy), as used by `if (name) ...` / `if (!options.description && !options.name)`. -/
def jsTruthyStr : Option String → Bool
  | none => false
  | some s => s ≠ ""

/-- JavaScript truthiness of the `actualPort` variable (null and 0 are falsy). -/
def jsTruthyNat : Option Nat → Bool
  | none => false
  | some n => n ≠ 0

/-! ## The `update-taskspace` CLI command (C8, C10)

The command action first derives the UUID from the working directory and
exits with code 1 when none is found; otherwise `TaskSpaceCLI.updateTaskSpace`
exits with code 1 when neither `--name` nor `--description` was supplied;
otherwise `sendMessage` rejects (exit 1, nothing written) when the daemon
socket file is missing, and on success writes the single JSON message. -/

/-- Options accepted by `update-taskspace`. -/
structure CliUpdateOptions where
  name : Option String
  description : Option String
deriving Repr, DecidableEq

/-- Result of one CLI invocation: the process exit code and the list of
messages written to the bus-daemon socket (each message is its ordered list
of JSON key/value pairs). -/
structure CliResult where
  exitCode : Nat
  socketWrites : List (List (String × String))
deriving Repr, DecidableEq

/-- The `update_taskspace` message object, with the field order of the
object literal: `type`, `uuid`, `timestamp`, then spread-in `description`
and `name` when truthy. -/
def mkUpdateMessage (uuid timestamp : String) (opts : CliUpdateOptions) :
    List (String × String) :=
  [("type", "update_taskspace"), ("uuid", uuid), ("timestamp", timestamp)]
    ++ (if jsTruthyStr opts.description then [("description", opts.description.getD "")] else [])
    ++ (if jsTruthyStr opts.name then [("name", opts.name.getD "")] else [])

/-- The full `update-taskspace` command action: UUID derivation from `cwd`,
the option check in `TaskSpaceCLI.updateTaskSpace`, and `sendMessage`'s
socket-existence check. `socketExists` is whether the daemon socket file is
present when `sendMessage` runs. -/
def updateTaskspaceCommand (cwd : String) (opts : CliUpdateOptions)
    (timestamp : String) (socketExists : Bool) : CliResult :=
  match extractUuidFromPath cwd with
  | none => { exitCode := 1, socketWrites := [] }
  | some uuid =>
    if !(jsTruthyStr opts.description || jsTruthyStr opts.name) then
      { exitCode := 1, socketWrites := [] }
    else if socketExists then
      { exitCode := 0, socketWrites := [mkUpdateMessage uuid timestamp opts] }
    else
      { exitCode := 1, socketWrites := [] }

/-! ## The controller's `updateTaskSpaceFromCLI` handler (C9) -/

/-- In-memory taskspace as far as the update handler observes it. -/
structure RTaskspace where
  uuid : String
  name : String
  port : Nat
deriving Repr, DecidableEq

/-- Controller state visible to the handler: the roster plus counters for
the two side effects of `notifyTaskSpacesChanged` (a roster-changed message
posted to the sidebar, and a `saveTaskSpaceData` write of the roster file). -/
structure AppState where
  taskspaces : List RTaskspace
  notifications : Nat
  rosterWrites : Nat
deriving Repr, DecidableEq

/-- `taskspaceWithUuid`: `this.taskspaces.find(s => s.uuid === taskspaceUuid)`. -/
def taskspaceWithUuid (ts : List RTaskspace) (u : String) : Option RTaskspace :=
  ts.find? (fun s => s.uuid == u)

/-- Mutate the first roster entry with the given uuid (the object returned
by `find` is mutated in place in the source). -/
def updateFirstTaskspace (l : List RTaskspace) (u : String)
    (f : RTaskspace → RTaskspace) : List RTaskspace :=
  match l with
  | [] => []
  | s :: rest =>
    if s.uuid == u then f s :: rest else s :: updateFirstTaskspace rest u f

/-- `SwitcherooApp.updateTaskSpaceFromCLI(uuid, name, description)`: if a
roster entry with the uuid exists, set its name when `name` is truthy (the
description is not stored — the source notes the field does not exist yet)
and run `notifyTaskSpacesChanged` (post + save). If no entry matches, only a
warning is logged: the state is returned untouched. -/
def updateTaskSpaceFromCLI (st : AppState) (uuid : String)
    (name _description : Option String) : AppState :=
  match taskspaceWithUuid st.taskspaces uuid with
  | some _ =>
    let ts :=
      if jsTruthyStr name then
        updateFirstTaskspace st.taskspaces uuid
          (fun s => { s with name := name.getD "" })
      else st.taskspaces
    { taskspaces := ts
      notifications := st.notifications + 1
      rosterWrites := st.rosterWrites + 1 }
  | none => st

/-! ## Tool-protocol (MCP) server message builders (C5) -/

/-- `handleNewTaskSpace`: builds the `new_taskspace_request` object with
fields `type`, `name`, `description`, `cwd`, `timestamp`, and appends
`initial_prompt` afterwards when provided. No UUID field is attached. -/
def mkNewTaskspaceMessage (name description cwd timestamp : String)
    (initialPrompt : Option String) : List (String × String) :=
  [("type", "new_taskspace_request"), ("name", name),
   ("description", description), ("cwd", cwd), ("timestamp", timestamp)]
    ++ (match initialPrompt with
        | some p => [("initial_prompt", p)]
        | none => [])

/-- `handleLogProgress`: builds the `progress_log` object, whose
`taskspace_uuid` field is the server's derived uuid. -/
def mkProgressLogMessage (message category uuid timestamp : String) :
    List (String × String) :=
  [("type", "progress_log"), ("message", message), ("category", category),
   ("taskspace_uuid", uuid), ("timestamp", timestamp)]

/-- `handleSignalUser`: builds the `user_signal` object, whose
`taskspace_uuid` field is the server's derived uuid. -/
def mkUserSignalMessage (message uuid timestamp : String) :
    List (String × String) :=
  [("type", "user_signal"), ("message", message),
   ("taskspace_uuid", uuid), ("timestamp", timestamp)]

/-- The tool-protocol server's constructor state: socket path from the
environment and the uuid derived from the working directory. -/
structure MCPServer where
  socketPath : String
  taskspaceUuid : Option String
deriving Repr, DecidableEq

/-- `TaskSpaceMCPServer` construction: derive the uuid from `process.cwd()`. -/
def mkMCPServer (cwd socketPath : String) : MCPServer :=
  { socketPath := socketPath, taskspaceUuid := extractUuidFromPath cwd }

/-- A tool invocation on the server. -/
inductive ToolCall where
  | newTaskspace (name shortDescription : String) (initialPrompt : Option String)
  | logProgress (message category : String)
  | signalUser (message : String)
deriving Repr, DecidableEq

/-- Result of the `CallTool` request handler: either the guard error (no
taskspace uuid could be derived, no tool may run) or the message emitted
onto the bus socket. -/
inductive ToolCallResult where
  | errorNoTaskspace
  | emitted (msg : List (String × String))
deriving Repr, DecidableEq

/-- The `CallTool` request handler of the tool-protocol server: reject every
call when `taskspaceUuid` is null, otherwise dispatch to the per-tool
handler, which sends exactly one message (`cwd` of the emission is the
server's working directory, passed through construction). -/
def callTool (srv : MCPServer) (cwd timestamp : String) (call : ToolCall) :
    ToolCallResult :=
  match srv.taskspaceUuid with
  | none => .errorNoTaskspace
  | some u =>
    match call with
    | .newTaskspace name shortDescription initialPrompt =>
      .emitted (mkNewTaskspaceMessage name shortDescription cwd timestamp initialPrompt)
    | .logProgress message category =>
      .emitted (mkProgressLogMessage message category u timestamp)
    | .signalUser message =>
      .emitted (mkUserSignalMessage message u timestamp)

/-! ## Bus daemon: startup and event handling (C1, C2)

From `PortalDaemon` in the daemon source. `start()` unconditionally removes
an existing socket file before listening; `setupShutdownHandlers()` installs
a cleanup routine on the `SIGINT`, `SIGTERM` and `exit` process events and
nothing else — in particular the daemon never installs a filesystem watcher
on its socket path. -/

/-- Outcome of `PortalDaemon.start()`. -/
inductive DStartOutcome where
  | started
  | failedListen
deriving Repr, DecidableEq

/-- Observable trace of one `start()` call. `removedExisting` records the
`unlinkSync` of a pre-existing socket file; `stderrLines` is everything the
call writes to standard error (only the listen-error log). -/
structure DaemonStartResult where
  removedExisting : Bool
  stderrLines : List String
  outcome : DStartOutcome
deriving Repr, DecidableEq

/-- `PortalDaemon.start()`: if the socket path exists it is unlinked; then
the server listens on the path. `listenOk` is whether the `listen` call
succeeds (its failure is the only rejection path). -/
def portalDaemonStart (socketExists listenOk : Bool) : DaemonStartResult :=
  { removedExisting := socketExists
    stderrLines := if listenOk then [] else ["Server error:"]
    outcome := if listenOk then .started else .failedListen }

/-- Runtime state of a running daemon process: whether the process is still
alive, the set of connected client sockets, whether the listening server is
open, and whether the socket file currently exists on disk. -/
structure PDState where
  running : Bool
  clients : List Nat
  serverOpen : Bool
  socketFile : Bool
deriving Repr, DecidableEq

/-- External events a running daemon can be subjected to. -/
inductive PDEvent where
  | sigint
  | sigterm
  | socketFileDeleted
  | clientConnect (id : Nat)
  | clientClose (id : Nat)
deriving Repr, DecidableEq

/-- The `cleanup` closure of `setupShutdownHandlers`: end every client
connection, close the server, unlink the socket file if it exists, and
`process.exit(0)`. -/
def pdCleanup (_s : PDState) : PDState :=
  { running := false, clients := [], serverOpen := false, socketFile := false }

/-- One event step of the running daemon. `cleanup` is registered for
`SIGINT` and `SIGTERM` only; client connect/close maintain the client set
(`handleClient`); the daemon registers no watcher on its socket path, so
deleting the socket file changes nothing but the file itself. -/
def pdStep (s : PDState) (e : PDEvent) : PDState :=
  if s.running then
    match e with
    | .sigint => pdCleanup s
    | .sigterm => pdCleanup s
    | .socketFileDeleted => { s with socketFile := false }
    | .clientConnect i => { s with clients := s.clients ++ [i] }
    | .clientClose i => { s with clients := s.clients.filter (fun j => j ≠ i) }
  else s

/-! ## Transport multiplexer: `SSHConnectionManager.ensureMaster` (C4, C6) -/

/-- `generateSocketPath(host)`: `path.join(os.homedir(), '.ssh', 'cm-' + host)`. -/
def generateSocketPath (home host : String) : String :=
  home ++ "/.ssh/cm-" ++ host

/-- The grace period `setTimeout` delay in `ensureMaster`, in milliseconds. -/
def graceMs : Nat := 1000

/-- Behavior of the freshly spawned ssh master process during one
`ensureMaster` call, relative to the 1 s grace timer:
`errorBeforeGrace` — the child emits an `error` event (spawn failure)
before the timer fires; `closeBeforeGrace` — the child's `close` event
(process exit) fires before the timer; `closeEventually` — a `close` event
fires at some point (before or after the timer); `killedBeforeGrace` —
some other code called `kill()` on the child before the timer fired (the
only way `process.killed` can be true at the timer). -/
structure SpawnBehavior where
  errorBeforeGrace : Bool
  closeBeforeGrace : Bool
  closeEventually : Bool
  killedBeforeGrace : Bool
deriving Repr, DecidableEq

/-- How the promise returned by `ensureMaster` settles. -/
inductive EnsureOutcome where
  | resolvedPath (p : String)
  | rejectedSpawnError
  | neverSettles
deriving Repr, DecidableEq

/-- The manager's `masters` map, host to recorded socket path. -/
structure SSHState where
  masters : List (String × String)
deriving Repr, DecidableEq

/-- Full observable result of one `ensureMaster(host)` call: how the
promise settled, whether a new control process was spawned, how many
milliseconds after the call a successful resolution happened, and the
`masters` map after all of this call's events have run. -/
structure EnsureResult where
  outcome : EnsureOutcome
  spawned : Bool
  resolveDelayMs : Option Nat
  state : SSHState
deriving Repr, DecidableEq

/-- `SSHConnectionManager.ensureMaster(host)`.

Cached branch: if `masters` has the host, return its recorded socket path
at once, spawning nothing.

Fresh branch: spawn the master and wire three callbacks —
`on('error', reject)`, `on('close', () => masters.delete(host))`, and a
1 s timer that, when `!masterProcess.killed`, records the connection in
`masters` and resolves with the socket path. The promise settles with
whichever of reject/resolve runs first; the timer always runs, and a
`close` event always deletes the host entry at its own time, so the final
map contents depend on the order of `close` versus the timer. -/
def ensureMaster (home : String) (st : SSHState) (host : String)
    (b : SpawnBehavior) : EnsureResult :=
  match st.masters.lookup host with
  | some p =>
    { outcome := .resolvedPath p, spawned := false
      resolveDelayMs := some 0, state := st }
  | none =>
    let path := generateSocketPath home host
    let outcome : EnsureOutcome :=
      if b.errorBeforeGrace then .rejectedSpawnError
      else if b.killedBeforeGrace then .neverSettles
      else .resolvedPath path
    let recorded :=
      !b.killedBeforeGrace && !(b.closeEventually && !b.closeBeforeGrace)
    { outcome := outcome
      spawned := true
      resolveDelayMs :=
        if !b.errorBeforeGrace && !b.killedBeforeGrace then some graceMs else none
      state := if recorded then ⟨(host, path) :: st.masters⟩ else st }

/-! ## Editor-server port discovery (C7) and startup timeout (C3)

From `SwitcherooApp.startVSCodeServer`: each stdout chunk is matched against
`/Web UI available at.*:(\d+)/i`, then `/localhost:(\d+)/`, then
`/127\.0\.0\.1:(\d+)/`, then `/0\.0\.0\.0:(\d+)/`; the first regex that
matches supplies the captured digits. The guard `portMatch && !actualPort`
accepts a port once, and a 60 s timer rejects the promise when no truthy
port was found. -/

/-- Leading run of decimal digits. -/
def takeDigits : List Char → List Char
  | [] => []
  | c :: rest => if c.isDigit then c :: takeDigits rest else []

/-- Decimal value of a digit run (`parseInt(match[1])`). -/
def digitsToNat (l : List Char) : Nat :=
  l.foldl (fun a c => a * 10 + (c.toNat - 48)) 0

/-- Case-sensitive literal match at the head of the list. -/
def litAtHead : List Char → List Char → Bool
  | [], _ => true
  | _ :: _, [] => false
  | p :: ps, c :: cs => p == c && litAtHead ps cs

/-- Case-insensitive literal match at the head of the list (regex `i` flag). -/
def litAtHeadCI : List Char → List Char → Bool
  | [], _ => true
  | _ :: _, [] => false
  | p :: ps, c :: cs => p.toLower == c.toLower && litAtHeadCI ps cs

/-- First match of `<lit>(\d+)`: scan left to right for the first position
where the literal is followed immediately by at least one digit; the capture
is the maximal digit run after the literal. -/
def litNumSearch (lit : List Char) : List Char → Option Nat
  | [] => none
  | c :: rest =>
    if litAtHead lit (c :: rest) then
      match (c :: rest).drop lit.length with
      | d :: ds =>
        if d.isDigit then some (digitsToNat (d :: takeDigits ds))
        else litNumSearch lit rest
      | [] => litNumSearch lit rest
    else litNumSearch lit rest

/-- The current line segment: characters up to the next newline (regex `.`
does not match a newline). -/
def lineSeg : List Char → List Char
  | [] => []
  | c :: rest => if c == '\n' then [] else c :: lineSeg rest

/-- Digits captured by a greedy `.*:(\d+)` over the given segment: the
digits after the last colon of the segment that is directly followed by a
digit (`.*` is greedy, so backtracking stops at the last such colon). -/
def lastColonNum : List Char → Option Nat
  | [] => none
  | c :: rest =>
    match lastColonNum rest with
    | some n => some n
    | none =>
      if c == ':' then
        match rest with
        | d :: ds =>
          if d.isDigit then some (digitsToNat (d :: takeDigits ds)) else none
        | [] => none
      else none

/-- The literal of the first port pattern. -/
def webUILit : List Char := "Web UI available at".data

/-- First match of `/Web UI available at.*:(\d+)/i`: the first position
where the literal matches case-insensitively and the rest of that line
contains a colon followed by a digit; the capture comes from the greedy
`.*:(\d+)` on that line segment. -/
def webUISearch : List Char → Option Nat
  | [] => none
  | c :: rest =>
    if litAtHeadCI webUILit (c :: rest) then
      match lastColonNum (lineSeg ((c :: rest).drop webUILit.length)) with
      | some n => some n
      | none => webUISearch rest
    else webUISearch rest

/-- The chained `output.match(...) || output.match(...) || ...` of
`startVSCodeServer`: try the four patterns in order on one chunk. -/
def matchFirstPort (chunk : String) : Option Nat :=
  match webUISearch chunk.data with
  | some n => some n
  | none =>
    match litNumSearch "localhost:".data chunk.data with
    | some n => some n
    | none =>
      match litNumSearch "127.0.0.1:".data chunk.data with
      | some n => some n
      | none => litNumSearch "0.0.0.0:".data chunk.data

/-- State of the port-acceptance logic across stdout chunks: the mutable
`actualPort` variable and the value the promise first resolved with. -/
structure PortScan where
  actualPort : Option Nat
  resolvedPort : Option Nat
deriving Repr, DecidableEq

/-- Initial scan state: `actualPort = null`, promise pending. -/
def initPortScan : PortScan := ⟨none, none⟩

/-- Process one stdout chunk: on a pattern match, the guard
`portMatch && !actualPort` assigns `actualPort` and calls `resolve` (which
only settles a still-pending promise). -/
def portScanStep (st : PortScan) (chunk : String) : PortScan :=
  match matchFirstPort chunk with
  | none => st
  | some p =>
    if jsTruthyNat st.actualPort then st
    else
      { actualPort := some p
        resolvedPort :=
          match st.resolvedPort with
          | none => some p
          | some q => some q }

/-- Process a whole sequence of stdout chunks. -/
def scanChunks (chunks : List String) : PortScan :=
  chunks.foldl portScanStep initPortScan

/-- A stdout chunk stamped with its arrival time in milliseconds after the
server process was spawned. -/
structure TimedChunk where
  atMs : Nat
  text : String
deriving Repr, DecidableEq

/-- The 60 s startup timer delay of `startVSCodeServer`, in milliseconds. -/
def startupTimeoutMs : Nat := 60000

/-- How the `startVSCodeServer` promise settles. -/
inductive StartResult where
  | ok (port : Nat)
  | timeoutErr
deriving Repr, DecidableEq

/-- Run state for the timed startup: `actualPort`, the settled value of the
promise (first settlement wins), and whether the 60 s timer has fired. -/
structure VSRun where
  actualPort : Option Nat
  result : Option StartResult
  timeoutFired : Bool
deriving Repr, DecidableEq

/-- Fire the 60 s timer: `if (!actualPort) reject(startup timeout)` — the
rejection only settles a still-pending promise. -/
def fireTimeout (s : VSRun) : VSRun :=
  if s.timeoutFired then s
  else
    { s with
      timeoutFired := true
      result :=
        match s.result with
        | some r => some r
        | none => if jsTruthyNat s.actualPort then none else some .timeoutErr }

/-- Process one timed stdout chunk: the timer fires first if the chunk
arrives at or after the timeout instant; then the chunk goes through the
same match-and-accept logic as `portScanStep`, resolving the promise on the
first accepted port. -/
def vsChunkStep (s : VSRun) (c : TimedChunk) : VSRun :=
  let s := if startupTimeoutMs ≤ c.atMs then fireTimeout s else s
  match matchFirstPort c.text with
  | none => s
  | some p =>
    if jsTruthyNat s.actualPort then s
    else
      { s with
        actualPort := some p
        result :=
          match s.result with
          | none => some (.ok p)
          | some r => some r }

/-- Run `startVSCodeServer`'s stdout handling over a time-ordered chunk
sequence; after all chunks the 60 s timer fires if it has not already. -/
def vscodeStartRun (chunks : List TimedChunk) : VSRun :=
  fireTimeout (chunks.foldl vsChunkStep ⟨none, none, false⟩)

/-- The settled outcome of `startVSCodeServer` (the run always settles:
the final timer rejection covers the no-port case). -/
def vscodeStartOutcome (chunks : List TimedChunk) : StartResult :=
  match (vscodeStartRun chunks).result with
  | some r => r
  | none => .timeoutErr

/-- The taskspace fields `ensureVSCodeServer` reads and writes. -/
structure TS where
  uuid : String
  name : String
  port : Nat
deriving Repr, DecidableEq

/-- `SwitcherooApp.ensureVSCodeServer(taskspace)`: when the taskspace has a
truthy port and the health probe succeeds, return with the taskspace
untouched; otherwise run `startVSCodeServer` — on success assign the
discovered port to `taskspace.port`, and on rejection let the error
propagate, with no write to `taskspace.port` on that path. `healthOk` is
the result of `checkTaskSpaceHealth` on the recorded port. -/
def ensureVSCodeServerModel (ts : TS) (healthOk : Bool)
    (chunks : List TimedChunk) : Except String Unit × TS :=
  if ts.port ≠ 0 && healthOk then (.ok (), ts)
  else
    match vscodeStartOutcome chunks with
    | .ok p => (.ok (), { ts with port := p })
    | .timeoutErr => (.error "VSCode server startup timeout", ts)

/-! ## Helper lemmas -/

/-- A settled `resolvedPort` survives any further chunk. -/
theorem portScanStep_keeps_resolved (st : PortScan) (c : String) (q : Nat)
    (h : st.resolvedPort = some q) :
    (portScanStep st c).resolvedPort = some q := by
  unfold portScanStep
  cases hm : matchFirstPort c with
  | none => exact h
  | some p =>
    by_cases ht : jsTruthyNat st.actualPort
    · simp [ht, h]
    · simp [ht, h]

/-- A settled `resolvedPort` survives any remaining chunk sequence. -/
theorem scan_foldl_keeps_resolved (cs : List String) (st : PortScan) (q : Nat)
    (h : st.resolvedPort = some q) :
    (cs.foldl portScanStep st).resolvedPort = some q := by
  induction cs generalizing st with
  | nil => exact h
  | cons c cs ih => exact ih _ (portScanStep_keeps_resolved st c q h)

/-- Invariant of the timed startup run under port-silent chunks: either the
promise is pending with no port and no timer yet, or the timer fired and the
promise is settled with the timeout rejection. -/
def VSInv (s : VSRun) : Prop :=
  (s.result = none ∧ s.actualPort = none ∧ s.timeoutFired = false) ∨
  (s.result = some .timeoutErr ∧ s.timeoutFired = true)

/-- One chunk that has no port pattern before the timeout preserves `VSInv`. -/
theorem vsChunkStep_inv (s : VSRun) (c : TimedChunk) (hInv : VSInv s)
    (hc : c.atMs < startupTimeoutMs → matchFirstPort c.text = none) :
    VSInv (vsChunkStep s c) := by
  unfold vsChunkStep
  by_cases hts : startupTimeoutMs ≤ c.atMs
  · have hfire : VSInv (fireTimeout s) ∧ (fireTimeout s).timeoutFired = true := by
      rcases hInv with ⟨h1, h2, h3⟩ | ⟨h1, h2⟩
      · constructor
        · right
          simp [fireTimeout, h1, h2, h3, jsTruthyNat]
        · simp [fireTimeout, h1, h2, h3]
      · constructor
        · right
          simp [fireTimeout, h2, h1]
        · simp [fireTimeout, h2]
    rcases hfire with ⟨hfInv, hfFired⟩
    rcases hfInv with ⟨h1, h2, h3⟩ | ⟨h1, h2⟩
    · rw [h3] at hfFired
      exact absurd hfFired (by simp)
    · simp only [hts, if_pos]
      cases hm : matchFirstPort c.text with
      | none => right; exact ⟨h1, h2⟩
      | some p =>
        by_cases ht : jsTruthyNat (fireTimeout s).actualPort
        · simp [ht]
          right; exact ⟨h1, h2⟩
        · simp [ht]
          right
          simp [h1, h2]
  · have hlt : c.atMs < startupTimeoutMs := Nat.lt_of_not_le hts
    have hm : matchFirstPort c.text = none := hc hlt
    simp only [hts, if_neg, if_false]
    simp [hm]
    exact hInv

/-- The invariant holds after folding any list of port-silent chunks. -/
theorem vsFold_inv (chunks : List TimedChunk) (s : VSRun) (hs : VSInv s)
    (h : ∀ c ∈ chunks, c.atMs < startupTimeoutMs → matchFirstPort c.text = none) :
    VSInv (chunks.foldl vsChunkStep s) := by
  induction chunks generalizing s with
  | nil => exact hs
  | cons c cs ih =>
    exact ih _ (vsChunkStep_inv s c hs (h c (by simp)))
      (fun d hd => h d (by simp [hd]))

/-- When no chunk shows a port pattern before the timeout, the startup
promise settles with the timeout rejection. -/
theorem vscodeStartOutcome_timeout (chunks : List TimedChunk)
    (h : ∀ c ∈ chunks, c.atMs < startupTimeoutMs → matchFirstPort c.text = none) :
    vscodeStartOutcome chunks = .timeoutErr := by
  have hInv : VSInv (chunks.foldl vsChunkStep ⟨none, none, false⟩) :=
    vsFold_inv chunks _ (Or.inl ⟨rfl, rfl, rfl⟩) h
  unfold vscodeStartOutcome vscodeStartRun
  rcases hInv with ⟨h1, h2, h3⟩ | ⟨h1, h2⟩
  · simp [fireTimeout, h1, h2, h3, jsTruthyNat]
  · simp [fireTimeout, h1, h2]

/-- The resolved port of a chunk scan is the match of the first chunk on
which any pattern matches. -/
theorem scanChunks_resolved_eq_findSome (chunks : List String) :
    (scanChunks chunks).resolvedPort = chunks.findSome? matchFirstPort := by
  unfold scanChunks
  induction chunks with
  | nil => rfl
  | cons c cs ih =>
    rw [List.foldl_cons, List.findSome?_cons]
    cases hm : matchFirstPort c with
    | none =>
      have : portScanStep initPortScan c = initPortScan := by
        simp [portScanStep, hm]
      rw [this]
      exact ih
    | some p =>
      have : portScanStep initPortScan c = ⟨some p, some p⟩ := by
        simp [portScanStep, hm, initPortScan, jsTruthyNat]
      rw [this]
      exact scan_foldl_keeps_resolved cs _ p rfl

/-! ## Claims -/

/-- C1: the claim states that a daemon started while its socket path exists
refuses to start and reports the conflict on stderr. The code instead
unlinks the stale socket and serves: with the socket present and a
successful listen, `start()` removes the file, prints nothing to stderr,
and reaches the started state. -/
theorem c1_counterexample :
    (portalDaemonStart true true).outcome = .started
    ∧ (portalDaemonStart true true).removedExisting = true
    ∧ (portalDaemonStart true true).stderrLines = [] := by
  refine ⟨rfl, rfl, rfl⟩

/-- C1 (amended): when the socket path already exists at startup the daemon
removes the existing socket file and starts serving anyway; it starts
exactly when the listener bind succeeds, regardless of whether the socket
path previously existed, and stderr carries only the listen-error log. -/
theorem c1_start_removes_existing_socket :
    ∀ socketExists listenOk : Bool,
      (portalDaemonStart socketExists listenOk).removedExisting = socketExists
      ∧ ((portalDaemonStart socketExists listenOk).outcome = .started ↔ listenOk = true)
      ∧ (portalDaemonStart socketExists listenOk).stderrLines
          = (if listenOk then [] else ["Server error:"]) := by
  decide

/-- C2: the claim states that deleting the socket file of a running daemon
makes it close clients and exit. The daemon installs no watcher on the
socket path: with one connected client, the socket-deletion event leaves
the daemon running, the client connected and the server open. -/
theorem c2_counterexample :
    pdStep ⟨true, [7], true, true⟩ .socketFileDeleted = ⟨true, [7], true, false⟩
    ∧ (pdStep ⟨true, [7], true, true⟩ .socketFileDeleted).running = true := by
  refine ⟨rfl, rfl⟩

/-- C2 (amended): a running daemon cleans up (closes every client, closes
the server, removes the socket file) and exits only on the termination
signals; deleting the socket file while it runs changes nothing in the
daemon — it stays running with its clients and server untouched. -/
theorem c2_signal_cleanup_but_no_socket_watch :
    ∀ s : PDState, s.running = true →
      pdStep s .sigint = pdCleanup s
      ∧ pdStep s .sigterm = pdCleanup s
      ∧ (pdCleanup s).running = false
      ∧ (pdCleanup s).clients = []
      ∧ (pdCleanup s).socketFile = false
      ∧ (pdStep s .socketFileDeleted).running = true
      ∧ (pdStep s .socketFileDeleted).clients = s.clients
      ∧ (pdStep s .socketFileDeleted).serverOpen = s.serverOpen := by
  intro s h
  simp [pdStep, pdCleanup, h]

/-- C2 witness: the amended statement at a concrete running state. -/
theorem c2_witness :
    (pdStep ⟨true, [1, 2], true, true⟩ .sigint).running = false
    ∧ (pdStep ⟨true, [1, 2], true, true⟩ .socketFileDeleted).running = true := by
  have h := c2_signal_cleanup_but_no_socket_watch ⟨true, [1, 2], true, true⟩ rfl
  exact ⟨by rw [h.1]; exact h.2.2.1, h.2.2.2.2.2.1⟩

/-- C3: the claim states that a startup timeout leaves the taskspace in
*Cloned* with its last-known port cleared to 0. On a taskspace whose
recorded server (port 45137) has died and whose restarted server prints no
port announcement, `ensureVSCodeServer` propagates the startup-timeout
rejection with the port still 45137 — the port is not cleared. -/
theorem c3_counterexample :
    ensureVSCodeServerModel ⟨"u0", "P0", 45137⟩ false []
      = (.error "VSCode server startup timeout", ⟨"u0", "P0", 45137⟩)
    ∧ (ensureVSCodeServerModel ⟨"u0", "P0", 45137⟩ false []).2.port ≠ 0 := by
  refine ⟨rfl, by decide⟩

/-- C3 (amended): whenever server startup is attempted (no healthy recorded
server) and no chunk of the editor server's stdout shows a port pattern
before the 60 s timer, the operation fails with the startup-timeout error
and the taskspace is left exactly as it was — in particular its last-known
port keeps its previous value instead of being cleared. -/
theorem c3_timeout_error_port_unchanged :
    ∀ (ts : TS) (healthOk : Bool) (chunks : List TimedChunk),
      (ts.port = 0 ∨ healthOk = false) →
      (∀ c ∈ chunks, c.atMs < startupTimeoutMs → matchFirstPort c.text = none) →
      ensureVSCodeServerModel ts healthOk chunks
        = (.error "VSCode server startup timeout", ts) := by
  intro ts healthOk chunks hstart hsilent
  have hcond : (decide (ts.port ≠ 0) && healthOk) = false := by
    rcases hstart with h | h
    · simp [h]
    · simp [h]
  unfold ensureVSCodeServerModel
  rw [vscodeStartOutcome_timeout chunks hsilent]
  simp only [hcond]
  rfl

/-- C3 witness: the amended statement on a dead recorded server and a
silent stdout. -/
theorem c3_witness :
    ensureVSCodeServerModel ⟨"u1", "P1", 33000⟩ false [⟨5000, "starting up"⟩]
      = (.error "VSCode server startup timeout", ⟨"u1", "P1", 33000⟩) := by
  refine c3_timeout_error_port_unchanged ⟨"u1", "P1", 33000⟩ false
    [⟨5000, "starting up"⟩] (Or.inr rfl) ?_
  intro c hc _
  simp only [List.mem_singleton] at hc
  subst hc
  rfl

/-- C4: the claim states that a control process that exits before or during
the 1 s grace interval makes the first `ensure_channel` call fail with a
transport-setup error, never succeeding and recording the dead channel. In
the code the grace timer only checks `process.killed`, which a self-exit
does not set: with the master exiting (`close`, no `error` event) inside
the interval, the call still resolves with the socket path after the grace
period and the `masters` map records the dead channel. -/
theorem c4_counterexample :
    (ensureMaster "/home/u" ⟨[]⟩ "h1" ⟨false, true, true, false⟩).outcome
      = .resolvedPath (generateSocketPath "/home/u" "h1")
    ∧ (ensureMaster "/home/u" ⟨[]⟩ "h1" ⟨false, true, true, false⟩).state.masters.lookup "h1"
      = some (generateSocketPath "/home/u" "h1")
    ∧ (ensureMaster "/home/u" ⟨[]⟩ "h1" ⟨false, true, true, false⟩).outcome
      ≠ .rejectedSpawnError := by
  refine ⟨rfl, by simp [ensureMaster], by simp [ensureMaster]⟩

/-- C4 (amended): on a first call for a host, the promise resolves only
after the 1 s grace period; it fails with a transport-setup error exactly
when the spawned process reports an `error` event during the interval. A
control process that merely exits during the interval does not fail the
call: the call resolves after the grace period and the channel — now dead —
is recorded in the masters map. -/
theorem c4_grace_period_and_spawn_error :
    ∀ (home host : String) (st : SSHState) (b : SpawnBehavior),
      st.masters.lookup host = none →
      ((b.errorBeforeGrace = true →
          (ensureMaster home st host b).outcome = .rejectedSpawnError)
      ∧ (b.errorBeforeGrace = false → b.killedBeforeGrace = false →
          (ensureMaster home st host b).outcome
              = .resolvedPath (generateSocketPath home host)
          ∧ (ensureMaster home st host b).resolveDelayMs = some graceMs)
      ∧ (b.errorBeforeGrace = false → b.killedBeforeGrace = false →
         b.closeBeforeGrace = true → b.closeEventually = true →
          (ensureMaster home st host b).state.masters.lookup host
              = some (generateSocketPath home host))) := by
  intro home host st b hnone
  refine ⟨?_, ?_, ?_⟩
  · intro he
    simp [ensureMaster, hnone, he]
  · intro he hk
    simp [ensureMaster, hnone, he, hk]
  · intro he hk hcb hce
    simp [ensureMaster, hnone, he, hk, hcb, hce]

/-- C4 witness: the amended statement at a concrete first call whose master
exits 0.5 s in. -/
theorem c4_witness :
    (ensureMaster "/home/u" ⟨[]⟩ "h2" ⟨false, true, true, false⟩).outcome
      = .resolvedPath (generateSocketPath "/home/u" "h2")
    ∧ (ensureMaster "/home/u" ⟨[]⟩ "h2" ⟨false, true, true, false⟩).state.masters.lookup "h2"
      = some (generateSocketPath "/home/u" "h2") := by
  have h := c4_grace_period_and_spawn_error "/home/u" "h2" ⟨[]⟩
    ⟨false, true, true, false⟩ rfl
  exact ⟨(h.2.1 rfl rfl).1, h.2.2 rfl rfl rfl rfl⟩

/-- The cached branch of `ensureMaster`: a host present in `masters` is
answered with its recorded path at once, spawning nothing. -/
theorem ensureMaster_cached (home : String) (st : SSHState) (host : String)
    (b : SpawnBehavior) (p : String) (h : st.masters.lookup host = some p) :
    ensureMaster home st host b
      = { outcome := .resolvedPath p, spawned := false
          resolveDelayMs := some 0, state := st } := by
  unfold ensureMaster
  rw [h]

/-- C6: `ensureMaster` is idempotent. A first call for a host (no recorded
master) whose control process establishes cleanly spawns one process and
records the socket path derived from the host name; any subsequent call for
the same host returns that same path immediately (no grace wait), spawns
nothing, and leaves the manager state unchanged. -/
theorem c6_ensure_master_idempotent :
    ∀ (home host : String) (st : SSHState) (b1 b2 : SpawnBehavior),
      st.masters.lookup host = none →
      b1.errorBeforeGrace = false → b1.killedBeforeGrace = false →
      b1.closeEventually = false →
      ((ensureMaster home st host b1).spawned = true
      ∧ (ensureMaster home st host b1).outcome
          = .resolvedPath (generateSocketPath home host)
      ∧ (ensureMaster home ((ensureMaster home st host b1).state) host b2).spawned = false
      ∧ (ensureMaster home ((ensureMaster home st host b1).state) host b2).outcome
          = .resolvedPath (generateSocketPath home host)
      ∧ (ensureMaster home ((ensureMaster home st host b1).state) host b2).resolveDelayMs
          = some 0
      ∧ (ensureMaster home ((ensureMaster home st host b1).state) host b2).state
          = (ensureMaster home st host b1).state) := by
  intro home host st b1 b2 hnone he hk hc
  have hstate : (ensureMaster home st host b1).state
      = ⟨(host, generateSocketPath home host) :: st.masters⟩ := by
    simp [ensureMaster, hnone, he, hk, hc]
  have hlook : ((ensureMaster home st host b1).state).masters.lookup host
      = some (generateSocketPath home host) := by
    rw [hstate]
    simp [List.lookup]
  have hcached := ensureMaster_cached home ((ensureMaster home st host b1).state)
    host b2 _ hlook
  refine ⟨?_, ?_, ?_, ?_, ?_, ?_⟩
  · simp [ensureMaster, hnone]
  · simp [ensureMaster, hnone, he, hk]
  · rw [hcached]
  · rw [hcached]
  · rw [hcached]
  · rw [hcached]

/-- C6 witness: the idempotence statement at a concrete host. -/
theorem c6_witness :
    (ensureMaster "/home/u" ⟨[]⟩ "dev" ⟨false, false, false, false⟩).spawned = true
    ∧ (ensureMaster "/home/u"
        ((ensureMaster "/home/u" ⟨[]⟩ "dev" ⟨false, false, false, false⟩).state)
        "dev" ⟨false, false, false, false⟩).spawned = false
    ∧ (ensureMaster "/home/u"
        ((ensureMaster "/home/u" ⟨[]⟩ "dev" ⟨false, false, false, false⟩).state)
        "dev" ⟨false, false, false, false⟩).outcome
      = .resolvedPath (generateSocketPath "/home/u" "dev") := by
  have h := c6_ensure_master_idempotent "/home/u" "dev" ⟨[]⟩
    ⟨false, false, false, false⟩ ⟨false, false, false, false⟩ rfl rfl rfl rfl
  exact ⟨h.1, h.2.2.1, h.2.2.2.1⟩

/-- C5: the claim states that every event the tool-protocol server emits
carries the taskspace UUID derived from its working directory. The
`new_taskspace_request` emission refutes it: from a working directory whose
derived UUID exists, the emitted message has no `taskspace_uuid` (and no
`uuid`) field at all. -/
theorem c5_counterexample :
    extractUuidFromPath "/w/taskspaces/12345678-1234-1234-1234-123456789abc/clone"
      = some "12345678-1234-1234-1234-123456789abc"
    ∧ callTool
        (mkMCPServer "/w/taskspaces/12345678-1234-1234-1234-123456789abc/clone" "/tmp/d.sock")
        "/w/taskspaces/12345678-1234-1234-1234-123456789abc/clone" "t0"
        (.newTaskspace "frontend" "Build the UI" none)
      = .emitted (mkNewTaskspaceMessage "frontend" "Build the UI"
          "/w/taskspaces/12345678-1234-1234-1234-123456789abc/clone" "t0" none)
    ∧ (mkNewTaskspaceMessage "frontend" "Build the UI"
          "/w/taskspaces/12345678-1234-1234-1234-123456789abc/clone" "t0" none).lookup
        "taskspace_uuid" = none
    ∧ (mkNewTaskspaceMessage "frontend" "Build the UI"
          "/w/taskspaces/12345678-1234-1234-1234-123456789abc/clone" "t0" none).lookup
        "uuid" = none := by
  refine ⟨by decide, ?_, by decide, by decide⟩
  simp [callTool, mkMCPServer]
  decide

/-- C5 (amended): when no UUID is derivable from the working directory the
server rejects every tool call; when a UUID is derivable, the `progress_log`
and `user_signal` emissions carry it in their `taskspace_uuid` field, while
the `new_taskspace_request` emission carries the working directory in its
`cwd` field and no `taskspace_uuid` field. -/
theorem c5_uuid_attachment :
    (∀ (cwd sock ts : String) (call : ToolCall),
      extractUuidFromPath cwd = none →
        callTool (mkMCPServer cwd sock) cwd ts call = .errorNoTaskspace)
    ∧ (∀ (cwd sock ts u : String),
      extractUuidFromPath cwd = some u →
        (∀ m c, callTool (mkMCPServer cwd sock) cwd ts (.logProgress m c)
            = .emitted (mkProgressLogMessage m c u ts)
          ∧ (mkProgressLogMessage m c u ts).lookup "taskspace_uuid" = some u)
        ∧ (∀ m, callTool (mkMCPServer cwd sock) cwd ts (.signalUser m)
            = .emitted (mkUserSignalMessage m u ts)
          ∧ (mkUserSignalMessage m u ts).lookup "taskspace_uuid" = some u)
        ∧ (∀ n d ip, callTool (mkMCPServer cwd sock) cwd ts (.newTaskspace n d ip)
            = .emitted (mkNewTaskspaceMessage n d cwd ts ip)
          ∧ (mkNewTaskspaceMessage n d cwd ts ip).lookup "taskspace_uuid" = none
          ∧ (mkNewTaskspaceMessage n d cwd ts ip).lookup "cwd" = some cwd)) := by
  constructor
  · intro cwd sock ts call h
    simp [callTool, mkMCPServer, h]
  · intro cwd sock ts u h
    refine ⟨?_, ?_, ?_⟩
    · intro m c
      constructor
      · simp [callTool, mkMCPServer, h]
      · simp [mkProgressLogMessage, List.lookup]
    · intro m
      constructor
      · simp [callTool, mkMCPServer, h]
      · simp [mkUserSignalMessage, List.lookup]
    · intro n d ip
      refine ⟨by simp [callTool, mkMCPServer, h], ?_, ?_⟩
      · cases ip <;> simp [mkNewTaskspaceMessage, List.lookup]
      · cases ip <;> simp [mkNewTaskspaceMessage, List.lookup]

/-- C5 witness: the amended statement at a concrete taskspace directory. -/
theorem c5_witness :
    callTool
      (mkMCPServer "/w/taskspaces/12345678-1234-1234-1234-123456789abc/clone" "/tmp/d.sock")
      "/w/taskspaces/12345678-1234-1234-1234-123456789abc/clone" "t0"
      (.logProgress "working" "info")
    = .emitted (mkProgressLogMessage "working" "info"
        "12345678-1234-1234-1234-123456789abc" "t0") :=
  ((c5_uuid_attachment.2 "/w/taskspaces/12345678-1234-1234-1234-123456789abc/clone"
    "/tmp/d.sock" "t0" "12345678-1234-1234-1234-123456789abc" (by decide)).1
    "working" "info").1

/-- C7: port discovery. On each stdout chunk the four patterns are tried in
order — `Web UI available at …:N` case-insensitively, then `localhost:N`,
then `127.0.0.1:N`, then `0.0.0.0:N` — and the port the startup resolves
with is the match of the first chunk on which any pattern matches; once
accepted it is never changed by later matches. -/
theorem c7_port_parsing_first_accept :
    (∀ chunks : List String,
      (scanChunks chunks).resolvedPort = chunks.findSome? matchFirstPort)
    ∧ (∀ s : String,
      matchFirstPort s =
        ((webUISearch s.data).orElse fun _ =>
          ((litNumSearch ("localhost:".data) s.data).orElse fun _ =>
            ((litNumSearch ("127.0.0.1:".data) s.data).orElse fun _ =>
              litNumSearch ("0.0.0.0:".data) s.data)))) := by
  constructor
  · exact scanChunks_resolved_eq_findSome
  · intro s
    unfold matchFirstPort
    cases webUISearch s.data <;>
      cases litNumSearch ("localhost:".data) s.data <;>
        cases litNumSearch ("127.0.0.1:".data) s.data <;>
          rfl

/-- C8: an `update-taskspace` invocation from a working directory whose
path contains no canonical UUID substring exits with code 1 (non-zero) and
writes nothing to the bus-daemon socket, whatever the options, timestamp
and socket state. -/
theorem c8_no_uuid_exits_without_bus :
    ∀ (cwd : String) (opts : CliUpdateOptions) (timestamp : String)
      (socketExists : Bool),
      extractUuidFromPath cwd = none →
      updateTaskspaceCommand cwd opts timestamp socketExists
        = { exitCode := 1, socketWrites := [] } := by
  intro cwd opts timestamp socketExists h
  unfold updateTaskspaceCommand
  rw [h]

/-- C8 witness: a working directory with no UUID substring. -/
theorem c8_witness :
    updateTaskspaceCommand "/home/user/project" ⟨some "Alpha", none⟩ "t0" true
      = { exitCode := 1, socketWrites := [] } :=
  c8_no_uuid_exits_without_bus "/home/user/project" ⟨some "Alpha", none⟩ "t0" true
    (by decide)

/-- C9: an `update_taskspace` event whose uuid matches no roster entry
leaves the controller state identical — no entry renamed, no roster-changed
notification posted, no roster file written. -/
theorem c9_unknown_uuid_is_noop :
    ∀ (st : AppState) (uuid : String) (name description : Option String),
      taskspaceWithUuid st.taskspaces uuid = none →
      updateTaskSpaceFromCLI st uuid name description = st := by
  intro st uuid name description h
  unfold updateTaskSpaceFromCLI
  rw [h]

/-- C9 witness: an update for a uuid absent from a one-entry roster. -/
theorem c9_witness :
    updateTaskSpaceFromCLI
        ⟨[⟨"12345678-1234-1234-1234-123456789abc", "P0", 45137⟩], 3, 3⟩
        "ffffffff-ffff-ffff-ffff-ffffffffffff" (some "New") none
      = ⟨[⟨"12345678-1234-1234-1234-123456789abc", "P0", 45137⟩], 3, 3⟩ :=
  c9_unknown_uuid_is_noop
    ⟨[⟨"12345678-1234-1234-1234-123456789abc", "P0", 45137⟩], 3, 3⟩
    "ffffffff-ffff-ffff-ffff-ffffffffffff" (some "New") none (by decide)

/-- C10: an `update-taskspace` invocation that supplies neither `--name`
nor `--description` exits with code 1 and writes nothing to the bus-daemon
socket, even when a taskspace UUID is derivable from the working directory
and the daemon socket exists. -/
theorem c10_missing_options_exit_one :
    ∀ (cwd : String) (timestamp : String) (socketExists : Bool) (u : String),
      extractUuidFromPath cwd = some u →
      updateTaskspaceCommand cwd ⟨none, none⟩ timestamp socketExists
        = { exitCode := 1, socketWrites := [] } := by
  intro cwd timestamp socketExists u h
  unfold updateTaskspaceCommand
  rw [h]
  rfl

/-- C10 witness: invocation from inside a taskspace clone directory with no
options. -/
theorem c10_witness :
    updateTaskspaceCommand
        "/base/taskspaces/12345678-1234-1234-1234-123456789abc/clone"
        ⟨none, none⟩ "t0" true
      = { exitCode := 1, socketWrites := [] } :=
  c10_missing_options_exit_one
    "/base/taskspaces/12345678-1234-1234-1234-123456789abc/clone" "t0" true
    "12345678-1234-1234-1234-123456789abc" (by decide)
